import Mathlib

/-!
Verification of the frame-query resolution and tag-mutation engine of rsid3,
a command-line ID3v2 tag editor.  The definitions below are a shallow
embedding of `src/id3_helpers.rs` and `src/cli.rs`; the ID3v2 tag codec
(the external `id3` crate) is not part of the repository, so its small
interface (content accessors, ordered frame collections, identifier
conversion, write sinks) is modelled from the specification's description
of that collaborator, as each doc comment notes.  Rust's ordered `match`
over string literals is rendered as an if-then-else chain, `Result` as
`Except String`, and the `?` operator as an explicit match on the result.
-/

namespace Rsid3

/-- `ExtendedText` (`TXXX`) frame content: `description` disambiguates, `value` is the payload. -/
structure ExtendedText where
  description : String
  value : String
deriving DecidableEq, Repr

/-- `ExtendedLink` (`WXXX`) frame content. -/
structure ExtendedLink where
  description : String
  link : String
deriving DecidableEq, Repr

/-- `Comment` (`COMM`) frame content, disambiguated by `(description, lang)`. -/
structure Comment where
  description : String
  lang : String
  text : String
deriving DecidableEq, Repr

/-- `Lyrics` (`USLT`) frame content, disambiguated like `Comment`. -/
structure Lyrics where
  description : String
  lang : String
  text : String
deriving DecidableEq, Repr

/-- Modelled from the spec: the polymorphic frame content variants of the tag
codec (text, link, extended text, extended link, comment, lyrics, and an
opaque variant for all other supported kinds). -/
inductive Content where
  | text (s : String)
  | link (s : String)
  | extendedText (e : ExtendedText)
  | extendedLink (e : ExtendedLink)
  | comment (c : Comment)
  | lyrics (l : Lyrics)
  | other (raw : String)
deriving DecidableEq, Repr

/-- A frame: an identifier plus content (the `id3` crate's `Frame`). -/
structure Frame where
  id : String
  content : Content
deriving DecidableEq, Repr

/-- `Frame::text(id, text)`: a frame with plain text content. -/
def Frame.text (id t : String) : Frame := ⟨id, .text t⟩

/-- `Frame::with_content(id, content)`. -/
def Frame.with_content (id : String) (c : Content) : Frame := ⟨id, c⟩

/-- The three ID3v2 sub-versions. -/
inductive Version where
  | id3v22
  | id3v23
  | id3v24
deriving DecidableEq, Repr

/-- The `id3` crate's `Display` for `Version`, as observed in the repository's tests. -/
def versionStr : Version → String
  | .id3v22 => "ID3v2.2"
  | .id3v23 => "ID3v2.3"
  | .id3v24 => "ID3v2.4"

/-- Modelled from the spec: a tag is "an ordered collection of Frames plus a
declared version". -/
structure Tag where
  version : Version
  frames : List Frame
deriving DecidableEq, Repr

/-- Modelled from the spec: a stand-in for the `id3` crate's derived `Debug`
rendering of content, used only inside kind-mismatch messages whose exact
text no claim depends on. -/
def contentDebug : Content → String
  | .text s => "Text(" ++ s ++ ")"
  | .link s => "Link(" ++ s ++ ")"
  | .extendedText e => "ExtendedText(" ++ e.description ++ ", " ++ e.value ++ ")"
  | .extendedLink e => "ExtendedLink(" ++ e.description ++ ", " ++ e.link ++ ")"
  | .comment c => "Comment(" ++ c.description ++ ", " ++ c.lang ++ ", " ++ c.text ++ ")"
  | .lyrics l => "Lyrics(" ++ l.description ++ ", " ++ l.lang ++ ", " ++ l.text ++ ")"
  | .other raw => "Other(" ++ raw ++ ")"

/-- Modelled from the spec: `Debug` rendering of a whole frame (see `contentDebug`). -/
def frameDebug (f : Frame) : String :=
  "Frame(" ++ f.id ++ ", " ++ contentDebug f.content ++ ")"

/-- Modelled from the spec: opaque content is "rendered via a generic textual
representation" (the `id3` crate's `Display for Content`); the exact rendering
is immaterial to the claims. -/
def contentDisplay : Content → String
  | .text s => s
  | .link s => s
  | .extendedText e => e.description ++ ": " ++ e.value
  | .extendedLink e => e.description ++ ": " ++ e.link
  | .comment c => c.lang ++ ": " ++ c.description ++ ": " ++ c.text
  | .lyrics l => l.lang ++ ": " ++ l.description ++ ": " ++ l.text
  | .other raw => raw

/-- `get_content_text`: the crate accessor `Content::text()` is modelled from
the spec ("fails if the frame's declared content kind does not match the
accessor"); the wrapper and its error message are from `id3_helpers.rs`. -/
def get_content_text (frame : Frame) : Except String String :=
  match frame.content with
  | .text x => .ok x
  | _ => .error ("Frame claims to be " ++ frame.id ++ " with T but has no text content: "
      ++ frameDebug frame)

/-- `get_content_link` (see `get_content_text`). -/
def get_content_link (frame : Frame) : Except String String :=
  match frame.content with
  | .link x => .ok x
  | _ => .error ("Frame claims to be " ++ frame.id ++ " with T but has no link content: "
      ++ frameDebug frame)

/-- `get_content_txxx` (see `get_content_text`). -/
def get_content_txxx (frame : Frame) : Except String ExtendedText :=
  match frame.content with
  | .extendedText x => .ok x
  | _ => .error ("Frame claims to be TXXX but has no extended text content: "
      ++ frameDebug frame)

/-- `get_content_wxxx` (see `get_content_text`). -/
def get_content_wxxx (frame : Frame) : Except String ExtendedLink :=
  match frame.content with
  | .extendedLink x => .ok x
  | _ => .error ("Frame claims to be WXXX but has no extended link content: "
      ++ frameDebug frame)

/-- `get_content_comm` (see `get_content_text`). -/
def get_content_comm (frame : Frame) : Except String Comment :=
  match frame.content with
  | .comment x => .ok x
  | _ => .error ("Frame claims to be COMM but has no comment content: "
      ++ frameDebug frame)

/-- `get_content_uslt` (see `get_content_text`). -/
def get_content_uslt (frame : Frame) : Except String Lyrics :=
  match frame.content with
  | .lyrics x => .ok x
  | _ => .error ("Frame claims to be USLT but has no lyrics content: "
      ++ frameDebug frame)

/-- `frames_query_equal` from `id3_helpers.rs`: identifiers must match; for
`TXXX`/`WXXX` the descriptions must also match; for `COMM`/`USLT` the
descriptions and the languages must also match (note: no special treatment
of any language value). -/
def frames_query_equal (frame1 frame2 : Frame) : Except String Bool :=
  if frame1.id ≠ frame2.id then
    .ok false
  else if frame1.id = "TXXX" then
    match get_content_txxx frame1 with
    | .error e => .error e
    | .ok extended_text1 =>
      match get_content_txxx frame2 with
      | .error e => .error e
      | .ok extended_text2 =>
        if extended_text1.description ≠ extended_text2.description then .ok false else .ok true
  else if frame1.id = "WXXX" then
    match get_content_wxxx frame1 with
    | .error e => .error e
    | .ok extended_link1 =>
      match get_content_wxxx frame2 with
      | .error e => .error e
      | .ok extended_link2 =>
        if extended_link1.description ≠ extended_link2.description then .ok false else .ok true
  else if frame1.id = "COMM" then
    match get_content_comm frame1 with
    | .error e => .error e
    | .ok comment1 =>
      match get_content_comm frame2 with
      | .error e => .error e
      | .ok comment2 =>
        if comment1.description ≠ comment2.description ∨ comment1.lang ≠ comment2.lang then
          .ok false
        else .ok true
  else if frame1.id = "USLT" then
    match get_content_uslt frame1 with
    | .error e => .error e
    | .ok lyrics1 =>
      match get_content_uslt frame2 with
      | .error e => .error e
      | .ok lyrics2 =>
        if lyrics1.description ≠ lyrics2.description ∨ lyrics1.lang ≠ lyrics2.lang then
          .ok false
        else .ok true
  else
    .ok true

/-- Whether a frame's declared content kind matches its identifier for the
four structured kinds (other identifiers are unconstrained here). -/
def kindOk (f : Frame) : Bool :=
  if f.id = "TXXX" then (match f.content with | .extendedText _ => true | _ => false)
  else if f.id = "WXXX" then (match f.content with | .extendedLink _ => true | _ => false)
  else if f.id = "COMM" then (match f.content with | .comment _ => true | _ => false)
  else if f.id = "USLT" then (match f.content with | .lyrics _ => true | _ => false)
  else true

/-- The equality rule exactly as the specification words it, including the
`"first"` language sentinel for `COMM`/`USLT`; written from the spec's words
for comparison against the source's `frames_query_equal`. -/
def framesQueryEqualSpecRule (q c : Frame) : Bool :=
  (q.id == c.id) &&
    (if q.id = "TXXX" then
      match q.content, c.content with
      | .extendedText e1, .extendedText e2 => e1.description == e2.description
      | _, _ => false
    else if q.id = "WXXX" then
      match q.content, c.content with
      | .extendedLink e1, .extendedLink e2 => e1.description == e2.description
      | _, _ => false
    else if q.id = "COMM" then
      match q.content, c.content with
      | .comment c1, .comment c2 =>
          c1.description == c2.description && (c1.lang == c2.lang || c1.lang == "first")
      | _, _ => false
    else if q.id = "USLT" then
      match q.content, c.content with
      | .lyrics l1, .lyrics l2 =>
          l1.description == l2.description && (l1.lang == l2.lang || l1.lang == "first")
      | _, _ => false
    else true)

/-- The exact-match equality rule that the source's `frames_query_equal`
actually implements: like `framesQueryEqualSpecRule` but with no language
sentinel for `COMM`/`USLT`. -/
def framesQueryEqualExact (q c : Frame) : Bool :=
  (q.id == c.id) &&
    (if q.id = "TXXX" then
      match q.content, c.content with
      | .extendedText e1, .extendedText e2 => e1.description == e2.description
      | _, _ => false
    else if q.id = "WXXX" then
      match q.content, c.content with
      | .extendedLink e1, .extendedLink e2 => e1.description == e2.description
      | _, _ => false
    else if q.id = "COMM" then
      match q.content, c.content with
      | .comment c1, .comment c2 =>
          c1.description == c2.description && c1.lang == c2.lang
      | _, _ => false
    else if q.id = "USLT" then
      match q.content, c.content with
      | .lyrics l1, .lyrics l2 =>
          l1.description == l2.description && l1.lang == l2.lang
      | _, _ => false
    else true)

/-- Modelled from the spec: `Tag::remove(id)` performs "identifier-scoped
removal": every stored frame with the given identifier is removed and
returned, in order; the rest of the collection keeps its order. -/
def Tag.remove (tag : Tag) (id : String) : Tag × List Frame :=
  (⟨tag.version, tag.frames.filter (fun f => !(f.id == id))⟩,
   tag.frames.filter (fun f => f.id == id))

/-- Modelled from the spec: `Tag::add_frame` as `delete_tag_frame` uses it,
re-inserting a removed frame into the ordered collection (appending; the
re-inserted frames all carry the query identifier that was just removed, so
no stored frame is displaced). -/
def Tag.add_frame (tag : Tag) (f : Frame) : Tag :=
  ⟨tag.version, tag.frames ++ [f]⟩

/-- The loop of `delete_tag_frame`: each frame removed by `Tag.remove` is
dropped when `frames_query_equal` accepts it and re-added otherwise; an
accessor error aborts the loop (Rust `?`), leaving the not-yet-re-examined
frames out of the tag. -/
def deleteLoop (frame : Frame) (tag : Tag) (found : Bool) :
    List Frame → Tag × Except String Bool
  | [] => (tag, .ok found)
  | removed_frame :: rest =>
    match frames_query_equal frame removed_frame with
    | .error e => (tag, .error e)
    | .ok true => deleteLoop frame tag true rest
    | .ok false => deleteLoop frame (tag.add_frame removed_frame) found rest

/-- How `delete_tag_frame` renders the query in its not-found message
(`TXXX[desc]`, `COMM[desc](lang)`, or the bare identifier). -/
def deleteQueryStr (frame : Frame) : Except String String :=
  if frame.id = "WXXX" then
    match get_content_wxxx frame with
    | .error e => .error e
    | .ok e => .ok (frame.id ++ "[" ++ e.description ++ "]")
  else if frame.id = "TXXX" then
    match get_content_txxx frame with
    | .error e => .error e
    | .ok e => .ok (frame.id ++ "[" ++ e.description ++ "]")
  else if frame.id = "COMM" then
    match get_content_comm frame with
    | .error e => .error e
    | .ok c => .ok (frame.id ++ "[" ++ c.description ++ "](" ++ c.lang ++ ")")
  else if frame.id = "USLT" then
    match get_content_uslt frame with
    | .error e => .error e
    | .ok l => .ok (frame.id ++ "[" ++ l.description ++ "](" ++ l.lang ++ ")")
  else
    .ok frame.id

/-- `delete_tag_frame` from `id3_helpers.rs`: remove all frames sharing the
query identifier, re-add those that are not query-equal, and fail with a
not-found message when nothing was dropped.  Returns the tag as the Rust
in-place mutation leaves it, along with the `Result`. -/
def delete_tag_frame (tag : Tag) (frame : Frame) : Tag × Except String Unit :=
  let rem := tag.remove frame.id
  match deleteLoop frame rem.1 false rem.2 with
  | (t, .error e) => (t, .error e)
  | (t, .ok true) => (t, .ok ())
  | (t, .ok false) =>
    match deleteQueryStr frame with
    | .error e => (t, .error e)
    | .ok s => (t, .error ("Could not delete " ++ s ++ ": frame not found"))

/-- `tag_with_version_from` from `id3_helpers.rs`.  Whether a frame
identifier has a representation in a target version (the `id3` crate's
`Frame::id_for_version`) is external to the repository; modelled from the
spec ("a valid representation in targetVersion's frame-identifier space")
as the parameter `id_for_version`. -/
def tag_with_version_from (id_for_version : String → Version → Option String)
    (tag : Tag) (target_version : Version) (force : Bool) : Except String Tag :=
  if tag.version = target_version then
    .ok tag
  else if force then
    .ok ⟨target_version,
      tag.frames.filter (fun x => (id_for_version x.id target_version).isSome)⟩
  else
    let incompatible_frames :=
      (tag.frames.filter (fun x => (id_for_version x.id target_version).isNone)).map Frame.id
    if incompatible_frames ≠ [] then
      .error ("Cannot convert tag from " ++ versionStr tag.version ++ " to "
        ++ versionStr target_version ++ ": Incompatible frames: "
        ++ String.intercalate ", " incompatible_frames)
    else
      .ok ⟨target_version, tag.frames⟩

/-- The two writes `try_write_tag` can attempt, in order: the trial
serialization to the discard sink, then the real file write. -/
inductive WriteEvent where
  | trial
  | real
deriving DecidableEq, Repr

/-- `try_write_tag` from `id3_helpers.rs`.  The codec's `Tag::write_to`
(serialize to a sink; called on `std::io::empty()`, a discard sink) and
`Tag::write_to_path` (the real file write) are external; modelled from the
spec as outcome parameters.  The first component records which writes were
attempted, in order. -/
def try_write_tag (write_to : Tag → Version → Except String Unit)
    (write_to_path : String → Tag → Version → Except String Unit)
    (tag : Tag) (fpath : String) (version : Version) : List WriteEvent × Except String Unit :=
  match write_to tag version with
  | .error e => ([.trial], .error ("Failed to compose tag of '" ++ fpath ++ "': " ++ e))
  | .ok _ =>
    match write_to_path fpath tag version with
    | .error e => ([.trial, .real], .error ("Failed to write tag to '" ++ fpath ++ "': " ++ e))
    | .ok _ => ([.trial, .real], .ok ())

/-- Rust `str::starts_with`, on the character sequence. -/
def strStartsWith (s p : String) : Bool := p.data.isPrefixOf s.data

/-- Modelled from the spec: `Tag::get(id)` returns the first stored frame
with the given identifier ("look up by identifier (first occurrence)"). -/
def tagGet (tag : Tag) (id : String) : Option Frame :=
  tag.frames.find? (fun f => f.id == id)

/-- The common shape of the four scan loops in `print_tag_frame_query`:
iterate over the tag frames whose identifier is `idLit`; a frame whose
content fails the accessor `getC` is reported on the error stream
(`eprintln!("rsid3: {e}")`, collected here as a list of strings) and
skipped; the first frame whose content satisfies `accept` has its `payload`
printed; if the loop ends, fail with `notFound`. -/
def scanStructured {γ : Type} (getC : Frame → Except String γ) (idLit : String)
    (accept : γ → Bool) (payload : γ → String) (notFound : String) :
    List Frame → List String × Except String String
  | [] => ([], .error notFound)
  | f :: rest =>
    if f.id = idLit then
      match getC f with
      | .error e =>
        let r := scanStructured getC idLit accept payload notFound rest
        (("rsid3: " ++ e) :: r.1, r.2)
      | .ok g =>
        if accept g then ([], .ok (payload g))
        else scanStructured getC idLit accept payload notFound rest
    else scanStructured getC idLit accept payload notFound rest

/-- What one scan step yields on a frame: the payload when the frame has the
scanned identifier, a well-kinded content and an accepted content, `none`
otherwise. -/
def structHit {γ : Type} (getC : Frame → Except String γ) (idLit : String)
    (accept : γ → Bool) (payload : γ → String) (f : Frame) : Option String :=
  if f.id = idLit then
    match getC f with
    | .error _ => none
    | .ok g => if accept g then some (payload g) else none
  else none

/-- A frame with the scanned identifier whose content kind does not match. -/
def structBad {γ : Type} (getC : Frame → Except String γ) (idLit : String) (f : Frame) : Bool :=
  f.id == idLit && (match getC f with | .error _ => true | .ok _ => false)

/-- The warning a kind-mismatched frame produces during a scan. -/
def structWarn {γ : Type} (getC : Frame → Except String γ) (f : Frame) : String :=
  match getC f with
  | .error e => "rsid3: " ++ e
  | .ok _ => ""

/-- `print_tag_frame_query` from `id3_helpers.rs`.  The returned pair is
(warnings printed to the error stream, the printed payload or the error):
the Rust function prints the payload with `print!` and returns `Ok(())`;
here the payload itself is returned in the `Except`. -/
def print_tag_frame_query (tag : Tag) (frame : Frame) : List String × Except String String :=
  if frame.id = "TXXX" then
    match get_content_txxx frame with
    | .error e => ([], .error e)
    | .ok q =>
      scanStructured get_content_txxx "TXXX" (fun e => e.description == q.description)
        ExtendedText.value
        ("TXXX frame with description '" ++ q.description ++ "' not found") tag.frames
  else if frame.id = "WXXX" then
    match get_content_wxxx frame with
    | .error e => ([], .error e)
    | .ok q =>
      scanStructured get_content_wxxx "WXXX" (fun e => e.description == q.description)
        ExtendedLink.link
        ("WXXX frame with description '" ++ q.description ++ "' not found") tag.frames
  else if frame.id = "COMM" then
    match get_content_comm frame with
    | .error e => ([], .error e)
    | .ok q =>
      scanStructured get_content_comm "COMM"
        (fun c => c.description == q.description && (c.lang == q.lang || q.lang == "first"))
        Comment.text
        ("COMM frame with description '" ++ q.description ++ "' and language '"
          ++ q.lang ++ "' not found") tag.frames
  else if frame.id = "USLT" then
    match get_content_uslt frame with
    | .error e => ([], .error e)
    | .ok q =>
      scanStructured get_content_uslt "USLT"
        (fun l => l.description == q.description && (l.lang == q.lang || q.lang == "first"))
        Lyrics.text
        ("USLT frame with description '" ++ q.description ++ "' and language '"
          ++ q.lang ++ "' not found") tag.frames
  else if strStartsWith frame.id "T" then
    match tagGet tag frame.id with
    | none => ([], .error ("Frame not found: " ++ frame.id))
    | some text_frame =>
      match get_content_text text_frame with
      | .error e => ([], .error e)
      | .ok t => ([], .ok t)
  else if strStartsWith frame.id "W" then
    match tagGet tag frame.id with
    | none => ([], .error ("Frame not found: " ++ frame.id))
    | some link_frame =>
      match get_content_link link_frame with
      | .error e => ([], .error e)
      | .ok t => ([], .ok t)
  else
    match tagGet tag frame.id with
    | none => ([], .error ("Frame not found: " ++ frame.id))
    | some f => ([], .ok (contentDisplay f.content))

/-- Rust `str::ends_with`, on the character sequence. -/
def strEndsWith (s p : String) : Bool := p.data.isSuffixOf s.data

/-- Rust slice `&s[n..]`, on the character sequence (the arguments the CLI
slices are checked to be ASCII first). -/
def strDrop (s : String) (n : Nat) : String := ⟨s.data.drop n⟩

/-- Rust slice `&s[..(s.len() - 1)]`, on the character sequence. -/
def strDropLast (s : String) : String := ⟨s.data.dropLast⟩

/-- One of the convert options (`cli.rs`). -/
inductive ConvertOpt where
  | Id3v22
  | Id3v23
  | Id3v24
  | Id3v22Force
  | Id3v23Force
  | Id3v24Force
deriving DecidableEq, Repr

/-- One of the purge options (`cli.rs`). -/
inductive PurgeOpt where
  | Id3v22
  | Id3v23
  | Id3v24
  | All
deriving DecidableEq, Repr

/-- A single action passed on the command line (`cli.rs`). -/
inductive Action where
  | Print (f : Frame)
  | Set (f : Frame)
  | Delete (f : Frame)
  | Convert (c : ConvertOpt)
  | Purge (p : PurgeOpt)
deriving DecidableEq, Repr

/-- All options passed to the program on the command line (`cli.rs`). -/
structure Cli where
  help : Bool
  version : Bool
  list_frames : Bool
  frame_sep : Option String
  file_sep : Option String
  frame_sep_null : Bool
  file_sep_null : Bool
  actions : List Action
  files : List String
deriving DecidableEq, Repr

/-- `Cli::is_getter_arg`: `--` followed by exactly four ASCII uppercase
letters or digits.  (Rust checks the byte length and then that every
character is ASCII uppercase/digit; on such arguments byte length and
character length agree, so the character sequence is used here.) -/
def Cli.is_getter_arg (arg : String) : Bool :=
  arg.data.length == 6 && strStartsWith arg "--" &&
    (arg.data.drop 2).all (fun c => c.isUpper || c.isDigit)

/-- The identifier list of `Cli::is_setter_arg`'s `matches!` (the fixed
read-write frame catalog). -/
def rwFrameIds : List String :=
  ["COMM", "TALB", "TBPM", "TCAT", "TCMP", "TCOM", "TCON", "TCOP",
   "TDAT", "TDEN", "TDES", "TDLY", "TDOR", "TDRC", "TDRL", "TDTG",
   "TENC", "TEXT", "TFLT", "TGID", "TIME", "TIPL", "TIT1", "TIT2",
   "TIT3", "TKEY", "TKWD", "TLAN", "TLEN", "TMCL", "TMED", "TMOO",
   "TOAL", "TOFN", "TOLY", "TOPE", "TORY", "TOWN", "TPE1", "TPE2",
   "TPE3", "TPE4", "TPOS", "TPRO", "TPUB", "TRCK", "TRDA", "TRSN",
   "TRSO", "TSIZ", "TSO2", "TSOA", "TSOC", "TSOP", "TSOT", "TSRC",
   "TSSE", "TSST", "TXXX", "TYER", "USLT", "WCOM", "WCOP", "WFED",
   "WOAF", "WOAR", "WOAS", "WORS", "WPAY", "WPUB", "WXXX"]

/-- `Cli::is_setter_arg`: `--`, an identifier from the fixed read-write
list, then `=`. -/
def Cli.is_setter_arg (arg : String) : Bool :=
  strStartsWith arg "--" && strEndsWith arg "=" &&
    rwFrameIds.contains (strDropLast (strDrop arg 2))

/-- `Cli::is_delete_arg`: `--`, four ASCII uppercase letters or digits,
then `-`. -/
def Cli.is_delete_arg (arg : String) : Bool :=
  arg.data.length == 7 && strStartsWith arg "--" && strEndsWith arg "-" &&
    ((arg.data.drop 2).dropLast).all (fun c => c.isUpper || c.isDigit)

/-- The outcome of one iteration of the argument loop of `Cli::parse_args`:
an argument-count or unknown-option error, a `break` (the remaining
arguments become the file list), or "continue" with the updated options and
the not-yet-consumed arguments. -/
inductive StepOut where
  | err (e : String)
  | stop (c : Cli)
  | next (acc2 : Cli) (rest2 : List String)
deriving DecidableEq, Repr

/-- One iteration of the argument loop of `Cli::parse_args`, for the current
argument `arg` with `rest` following it.  Rust's ordered `match` over the
argument becomes a chain of boolean tests; index lookahead (`args[i + 1]`, …)
becomes pattern matching on `rest`. -/
def parseStep (acc : Cli) (arg : String) (rest : List String) : StepOut :=
    bif arg == "-h" || arg == "--help" then .next { acc with help := true } rest
    else bif arg == "-V" || arg == "--version" then .next { acc with version := true } rest
    else bif arg == "-L" || arg == "--list-frames" then
      .next { acc with list_frames := true } rest
    else bif arg == "-d" || arg == "--frame-sep" then
      match rest with
      | [] => .err "1 argument expected after --frame-sep"
      | sep :: rest2 => .next { acc with frame_sep := some sep } rest2
    else bif strStartsWith arg "-d" then
      .next { acc with frame_sep := some (strDrop arg 2) } rest
    else bif arg == "-D" || arg == "--file-sep" then
      match rest with
      | [] => .err "1 argument expected after --file-sep"
      | sep :: rest2 => .next { acc with file_sep := some sep } rest2
    else bif strStartsWith arg "-D" then
      .next { acc with file_sep := some (strDrop arg 2) } rest
    else bif arg == "-0d" || arg == "--frame-sep-null" then
      .next { acc with frame_sep_null := true } rest
    else bif arg == "-0D" || arg == "--file-sep-null" then
      .next { acc with file_sep_null := true } rest
    else bif arg == "--" then .stop { acc with files := rest }
    else bif arg == "--COMM" then
      match rest with
      | desc :: lang :: rest2 =>
        .next { acc with actions := acc.actions ++
          [.Print (Frame.with_content "COMM" (.comment ⟨desc, lang, ""⟩))] } rest2
      | _ => .err "2 arguments expected after --COMM"
    else bif arg == "--USLT" then
      match rest with
      | desc :: lang :: rest2 =>
        .next { acc with actions := acc.actions ++
          [.Print (Frame.with_content "USLT" (.lyrics ⟨desc, lang, ""⟩))] } rest2
      | _ => .err "2 arguments expected after --USLT"
    else bif arg == "--TXXX" then
      match rest with
      | desc :: rest2 =>
        .next { acc with actions := acc.actions ++
          [.Print (Frame.with_content "TXXX" (.extendedText ⟨desc, ""⟩))] } rest2
      | _ => .err "1 argument expected after --TXXX"
    else bif arg == "--WXXX" then
      match rest with
      | desc :: rest2 =>
        .next { acc with actions := acc.actions ++
          [.Print (Frame.with_content "WXXX" (.extendedLink ⟨desc, ""⟩))] } rest2
      | _ => .err "1 argument expected after --WXXX"
    else bif Cli.is_getter_arg arg then
      .next { acc with actions := acc.actions ++
        [.Print (Frame.text (strDrop arg 2) "")] } rest
    else bif arg == "--COMM=" then
      match rest with
      | desc :: lang :: text :: rest2 =>
        .next { acc with actions := acc.actions ++
          [.Set (Frame.with_content "COMM" (.comment ⟨desc, lang, text⟩))] } rest2
      | _ => .err "3 arguments expected after --COMM="
    else bif arg == "--USLT=" then
      match rest with
      | desc :: lang :: text :: rest2 =>
        .next { acc with actions := acc.actions ++
          [.Set (Frame.with_content "USLT" (.lyrics ⟨desc, lang, text⟩))] } rest2
      | _ => .err "3 arguments expected after --USLT="
    else bif arg == "--TXXX=" then
      match rest with
      | desc :: value :: rest2 =>
        .next { acc with actions := acc.actions ++
          [.Set (Frame.with_content "TXXX" (.extendedText ⟨desc, value⟩))] } rest2
      | _ => .err "2 arguments expected after --TXXX="
    else bif arg == "--WXXX=" then
      match rest with
      | desc :: link :: rest2 =>
        .next { acc with actions := acc.actions ++
          [.Set (Frame.with_content "WXXX" (.extendedLink ⟨desc, link⟩))] } rest2
      | _ => .err "2 arguments expected after --WXXX="
    else bif Cli.is_setter_arg arg then
      match rest with
      | text :: rest2 =>
        .next { acc with actions := acc.actions ++
          [.Set (Frame.text (strDropLast (strDrop arg 2)) text)] } rest2
      | [] => .err ("1 argument expected after " ++ arg)
    else bif arg == "--COMM-" then
      match rest with
      | desc :: lang :: rest2 =>
        .next { acc with actions := acc.actions ++
          [.Delete (Frame.with_content "COMM" (.comment ⟨desc, lang, ""⟩))] } rest2
      | _ => .err "2 arguments expected after --COMM"
    else bif arg == "--USLT-" then
      match rest with
      | desc :: lang :: rest2 =>
        .next { acc with actions := acc.actions ++
          [.Delete (Frame.with_content "USLT" (.lyrics ⟨desc, lang, ""⟩))] } rest2
      | _ => .err "2 arguments expected after --USLT"
    else bif arg == "--TXXX-" then
      match rest with
      | desc :: rest2 =>
        .next { acc with actions := acc.actions ++
          [.Delete (Frame.with_content "TXXX" (.extendedText ⟨desc, ""⟩))] } rest2
      | _ => .err "1 argument expected after --TXXX"
    else bif arg == "--WXXX-" then
      match rest with
      | desc :: rest2 =>
        .next { acc with actions := acc.actions ++
          [.Delete (Frame.with_content "WXXX" (.extendedLink ⟨desc, ""⟩))] } rest2
      | _ => .err "1 argument expected after --WXXX"
    else bif Cli.is_delete_arg arg then
      .next { acc with actions := acc.actions ++
        [.Delete (Frame.text (strDropLast (strDrop arg 2)) "")] } rest
    else bif arg == "--id3v2.2" then
      .next { acc with actions := acc.actions ++ [.Convert .Id3v22] } rest
    else bif arg == "--id3v2.3" then
      .next { acc with actions := acc.actions ++ [.Convert .Id3v23] } rest
    else bif arg == "--id3v2.4" then
      .next { acc with actions := acc.actions ++ [.Convert .Id3v24] } rest
    else bif arg == "--force-id3v2.2" then
      .next { acc with actions := acc.actions ++ [.Convert .Id3v22Force] } rest
    else bif arg == "--force-id3v2.3" then
      .next { acc with actions := acc.actions ++ [.Convert .Id3v23Force] } rest
    else bif arg == "--force-id3v2.4" then
      .next { acc with actions := acc.actions ++ [.Convert .Id3v24Force] } rest
    else bif arg == "--purge-id3v2.2" then
      .next { acc with actions := acc.actions ++ [.Purge .Id3v22] } rest
    else bif arg == "--purge-id3v2.3" then
      .next { acc with actions := acc.actions ++ [.Purge .Id3v23] } rest
    else bif arg == "--purge-id3v2.4" then
      .next { acc with actions := acc.actions ++ [.Purge .Id3v24] } rest
    else bif arg == "--purge-all" then
      .next { acc with actions := acc.actions ++ [.Purge .All] } rest
    else bif strStartsWith arg "-" then
      .err ("Unknown option: '" ++ arg ++ "'")
    else
      .stop { acc with files := arg :: rest }

/-- The argument loop of `Cli::parse_args`.  The recursion is driven by a
fuel counter that `Cli.parse_args` sets to the argument count: every
iteration consumes at least the current argument (`parseStep` only ever
continues with a suffix of `rest`), so the fuel never runs out before the
argument list does and the zero-fuel arm is unreachable. -/
def parseLoop : Nat → Cli → List String → Except String Cli
  | _, acc, [] => .ok acc
  | 0, acc, _ => .ok acc
  | fuel + 1, acc, arg :: rest =>
    match parseStep acc arg rest with
    | .err e => .error e
    | .stop c => .ok c
    | .next acc2 rest2 => parseLoop fuel acc2 rest2

/-- The empty option record the parse starts from. -/
def Cli.init : Cli := ⟨false, false, false, none, none, false, false, [], []⟩

/-- `Cli::parse_args` from `cli.rs`, applied to the arguments after the
program name (Rust iterates `args[1..]`). -/
def Cli.parse_args (args : List String) : Except String Cli :=
  parseLoop args.length Cli.init args

/-- A `COMM` query frame with language `"first"` and description `d`. -/
def commFirstQuery : Frame := ⟨"COMM", .comment ⟨"d", "first", ""⟩⟩

/-- A stored `COMM` frame with the same description but language `"eng"`. -/
def commEngCandidate : Frame := ⟨"COMM", .comment ⟨"d", "eng", "x"⟩⟩

/-- A `USLT` query frame with language `"first"`. -/
def usltFirstQuery : Frame := ⟨"USLT", .lyrics ⟨"x", "first", ""⟩⟩

/-- A stored `USLT` frame with the same description but language `"ger"`. -/
def usltGerCandidate : Frame := ⟨"USLT", .lyrics ⟨"x", "ger", "la"⟩⟩

/-- The concrete tag for the C2 witness: an unrelated `TIT2` frame and two
comments with distinct descriptions. -/
def tagC2 : Tag :=
  ⟨.id3v24, [Frame.text "TIT2" "t",
             ⟨"COMM", .comment ⟨"a", "eng", "x"⟩⟩,
             ⟨"COMM", .comment ⟨"b", "eng", "y"⟩⟩]⟩

/-- The concrete delete query for the C2 witness. -/
def qC2 : Frame := ⟨"COMM", .comment ⟨"a", "eng", ""⟩⟩

/-- An identifier-representation map with no valid representations at all,
for the C3 counterexample. -/
def idForNone : String → Version → Option String := fun _ _ => none

/-- A tag already at the target version whose only frame has no
representation there (under `idForNone`). -/
def tagC3 : Tag := ⟨.id3v24, [Frame.text "TIT2" "x"]⟩

/-- The representation map for the C3 witness: only `TIT2` is representable. -/
def idForC3 : String → Version → Option String :=
  fun id _ => if id == "TIT2" then some id else none

/-- The tag for the C3 witness: one representable and one unrepresentable frame. -/
def tagC3w : Tag := ⟨.id3v23, [Frame.text "TIT2" "a", Frame.text "XXXX" "b"]⟩

/-- The representation map for the C4 witness: three-character identifiers
only exist in ID3v2.2 here, four-character ones elsewhere. -/
def idForC4 : String → Version → Option String :=
  fun id v => if v = .id3v22 then (if id.data.length == 3 then some id else none)
    else (if id.data.length == 4 then some id else none)

/-- The tag for the C4 witness. -/
def tagC4 : Tag := ⟨.id3v24, [Frame.text "TIT2" "a", Frame.text "TT2" "b"]⟩

/-- A serializer that always fails, for the C6 witness. -/
def failingWriteTo : Tag → Version → Except String Unit := fun _ _ => .error "boom"

/-- A file writer that always succeeds, for the C6 witness. -/
def okWriteToPath : String → Tag → Version → Except String Unit := fun _ _ _ => .ok ()

/-- The tag for the C5 witness. -/
def tagC5 : Tag := ⟨.id3v24, [⟨"TXXX", .extendedText ⟨"Description", "Sample Content"⟩⟩]⟩

/-- The query for the C5 witness. -/
def qC5 : Frame := ⟨"TXXX", .extendedText ⟨"Description", ""⟩⟩

/-- A tag whose first `TXXX` frame is kind-mismatched and whose second one
matches the query `qC9`. -/
def tagC9 : Tag := ⟨.id3v24, [⟨"TXXX", .text "oops"⟩, ⟨"TXXX", .extendedText ⟨"D", "V"⟩⟩]⟩

/-- The structured query used against `tagC9`. -/
def qC9 : Frame := ⟨"TXXX", .extendedText ⟨"D", ""⟩⟩

/-- On well-kinded frames, `frames_query_equal` succeeds and decides exactly
the exact-match rule. -/
theorem frames_query_equal_spec (q c : Frame) (hq : kindOk q = true) (hc : kindOk c = true) :
    frames_query_equal q c = .ok (framesQueryEqualExact q c) := by
  obtain ⟨qi, qc⟩ := q
  obtain ⟨ci, cc⟩ := c
  simp only [kindOk] at hq hc
  by_cases hid : qi = ci
  · subst hid
    by_cases h1 : qi = "TXXX"
    · subst h1
      simp only [if_pos rfl] at hq hc
      cases qc <;> simp at hq
      cases cc <;> simp at hc
      rename_i e1 e2
      by_cases hd : e1.description = e2.description <;>
        simp [frames_query_equal, framesQueryEqualExact, get_content_txxx, hd]
    · by_cases h2 : qi = "WXXX"
      · subst h2
        simp only [if_neg h1, if_pos rfl] at hq hc
        cases qc <;> simp at hq
        cases cc <;> simp at hc
        rename_i e1 e2
        by_cases hd : e1.description = e2.description <;>
          simp [frames_query_equal, framesQueryEqualExact, get_content_wxxx, hd, h1]
      · by_cases h3 : qi = "COMM"
        · subst h3
          simp only [if_neg h1, if_neg h2, if_pos rfl] at hq hc
          cases qc <;> simp at hq
          cases cc <;> simp at hc
          rename_i c1 c2
          by_cases hd : c1.description = c2.description <;>
            by_cases hl : c1.lang = c2.lang <;>
              simp [frames_query_equal, framesQueryEqualExact, get_content_comm, hd, hl, h1, h2]
        · by_cases h4 : qi = "USLT"
          · subst h4
            simp only [if_neg h1, if_neg h2, if_neg h3, if_pos rfl] at hq hc
            cases qc <;> simp at hq
            cases cc <;> simp at hc
            rename_i l1 l2
            by_cases hd : l1.description = l2.description <;>
              by_cases hl : l1.lang = l2.lang <;>
                simp [frames_query_equal, framesQueryEqualExact, get_content_uslt,
                  hd, hl, h1, h2, h3]
          · simp [frames_query_equal, framesQueryEqualExact, h1, h2, h3, h4]
  · simp [frames_query_equal, framesQueryEqualExact, hid]


/-- A scan loop returns the payload of the first frame accepted by the
query (skipping kind-mismatched frames), emits one warning per
kind-mismatched frame encountered before that, and fails with `notFound`
when no frame is accepted. -/
theorem scanStructured_eq {γ : Type} (getC : Frame → Except String γ) (idLit : String)
    (accept : γ → Bool) (payload : γ → String) (notFound : String) (frames : List Frame) :
    scanStructured getC idLit accept payload notFound frames =
      (((frames.takeWhile (fun f => (structHit getC idLit accept payload f).isNone)).filter
          (structBad getC idLit)).map (structWarn getC),
       match frames.findSome? (structHit getC idLit accept payload) with
       | some v => .ok v
       | none => .error notFound) := by
  induction frames with
  | nil => rfl
  | cons f rest ih =>
    by_cases hid : f.id = idLit
    · cases hg : getC f with
      | error e =>
        simp [scanStructured, structHit, structBad, structWarn, hid, hg, ih,
          List.takeWhile_cons, List.findSome?_cons]
      | ok g =>
        cases ha : accept g
        · simp [scanStructured, structHit, structBad, hid, hg, ha, ih,
            List.takeWhile_cons, List.findSome?_cons]
        · simp [scanStructured, structHit, hid, hg, ha,
            List.takeWhile_cons, List.findSome?_cons]
    · simp [scanStructured, structHit, structBad, hid, ih,
        List.takeWhile_cons, List.findSome?_cons]


/-- `==` on strings is symmetric. -/
theorem beqSymm (a b : String) : (a == b) = (b == a) := by
  by_cases h : a = b
  · subst h; rfl
  · simp [h, Ne.symm h]

/-- The exact-match rule is symmetric. -/
theorem framesQueryEqualExact_symm (q c : Frame) :
    framesQueryEqualExact q c = framesQueryEqualExact c q := by
  obtain ⟨qi, qc⟩ := q
  obtain ⟨ci, cc⟩ := c
  by_cases hid : qi = ci
  · subst hid
    by_cases h1 : qi = "TXXX"
    · subst h1
      cases qc <;> cases cc <;> simp [framesQueryEqualExact]
      exact eq_comm
    · by_cases h2 : qi = "WXXX"
      · subst h2
        cases qc <;> cases cc <;> simp [framesQueryEqualExact, h1]
        exact eq_comm
      · by_cases h3 : qi = "COMM"
        · subst h3
          cases qc <;> cases cc <;> simp [framesQueryEqualExact, h1, h2]
          rename_i x y
          rw [beqSymm x.description y.description, beqSymm x.lang y.lang]
        · by_cases h4 : qi = "USLT"
          · subst h4
            cases qc <;> cases cc <;> simp [framesQueryEqualExact, h1, h2, h3]
            rename_i x y
            rw [beqSymm x.description y.description, beqSymm x.lang y.lang]
          · simp [framesQueryEqualExact, h1, h2, h3, h4]
  · have hb1 : (qi == ci) = false := by simp [hid]
    have hb2 : (ci == qi) = false := by simp [Ne.symm hid]
    simp [framesQueryEqualExact, hb1, hb2]

/-- C1 counterexample: for this `COMM` query/candidate pair the identifiers
match, the descriptions match and the query's language is the `"first"`
sentinel, so the claimed rule accepts the pair, but `frames_query_equal`
returns `false`: the sentinel has no special meaning there. -/
theorem c1_counterexample :
    framesQueryEqualSpecRule commFirstQuery commEngCandidate = true ∧
    frames_query_equal commFirstQuery commEngCandidate = .ok false :=
  ⟨rfl, rfl⟩

/-- C1 (amended): for well-kinded frames, `frames_query_equal` holds iff the
identifiers match and, for `TXXX`/`WXXX`, the descriptions match exactly,
and for `COMM`/`USLT`, the descriptions match exactly and the languages
match exactly; the `"first"` sentinel is not honored by `frames_query_equal`
(it is honored only inside print resolution). -/
theorem c1_frames_query_equal_exact (q c : Frame)
    (hq : kindOk q = true) (hc : kindOk c = true) :
    frames_query_equal q c = .ok (framesQueryEqualExact q c) :=
  frames_query_equal_spec q c hq hc

/-- C1 witness: the amended theorem applied to the concrete pair above. -/
theorem c1_witness :
    kindOk commFirstQuery = true ∧ kindOk commEngCandidate = true ∧
    frames_query_equal commFirstQuery commEngCandidate
      = .ok (framesQueryEqualExact commFirstQuery commEngCandidate) :=
  ⟨rfl, rfl, c1_frames_query_equal_exact commFirstQuery commEngCandidate rfl rfl⟩

/-- C7 counterexample: the claim's sentinel conjunct fails on
`frames_query_equal`: this `USLT` query has language `"first"` and its
description matches the candidate's, yet `frames_query_equal` returns
`false`. -/
theorem c7_counterexample :
    framesQueryEqualSpecRule usltFirstQuery usltGerCandidate = true ∧
    frames_query_equal usltFirstQuery usltGerCandidate = .ok false :=
  ⟨rfl, rfl⟩

/-- C7 (amended): `frames_query_equal` is symmetric on well-kinded frames;
the `"first"`-sentinel property does not hold for `frames_query_equal` (see
the counterexample) but does hold for the matchers print resolution uses:
a `COMM`/`USLT` scan with query language `"first"` accepts any candidate
whose description matches, regardless of the candidate's language. -/
theorem c7_symmetry_and_print_sentinel :
    (∀ q c : Frame, kindOk q = true → kindOk c = true →
      frames_query_equal q c = frames_query_equal c q) ∧
    (∀ (qd : String) (c : Comment), c.description = qd →
      structHit get_content_comm "COMM"
        (fun x => x.description == qd && (x.lang == "first" || ("first" : String) == "first"))
        Comment.text ⟨"COMM", .comment c⟩ = some c.text) ∧
    (∀ (qd : String) (l : Lyrics), l.description = qd →
      structHit get_content_uslt "USLT"
        (fun x => x.description == qd && (x.lang == "first" || ("first" : String) == "first"))
        Lyrics.text ⟨"USLT", .lyrics l⟩ = some l.text) := by
  refine ⟨fun q c hq hc => ?_, fun qd c hd => ?_, fun qd l hd => ?_⟩
  · rw [frames_query_equal_spec q c hq hc, frames_query_equal_spec c q hc hq,
      framesQueryEqualExact_symm]
  · simp [structHit, get_content_comm, hd]
  · simp [structHit, get_content_uslt, hd]

/-- C7 witness: symmetry applied at the concrete pair, and the sentinel
property of the print matcher at a concrete comment. -/
theorem c7_witness :
    frames_query_equal usltFirstQuery usltGerCandidate
        = frames_query_equal usltGerCandidate usltFirstQuery ∧
    structHit get_content_comm "COMM"
      (fun x => x.description == "d" && (x.lang == "first" || ("first" : String) == "first"))
      Comment.text ⟨"COMM", .comment ⟨"d", "pol", "t"⟩⟩ = some "t" :=
  ⟨c7_symmetry_and_print_sentinel.1 usltFirstQuery usltGerCandidate rfl rfl,
   c7_symmetry_and_print_sentinel.2.1 "d" ⟨"d", "pol", "t"⟩ rfl⟩

/-- The delete loop, on frames it can compare without error: the threaded
tag gets exactly the non-query-equal frames appended, in their order, and
the result records whether any frame was dropped. -/
theorem deleteLoop_spec (q : Frame) (removed : List Frame) (tag : Tag) (found : Bool)
    (h : ∀ f ∈ removed, frames_query_equal q f = .ok (framesQueryEqualExact q f)) :
    deleteLoop q tag found removed =
      (⟨tag.version, tag.frames ++ removed.filter (fun f => !(framesQueryEqualExact q f))⟩,
       .ok (found || removed.any (fun f => framesQueryEqualExact q f))) := by
  induction removed generalizing tag found with
  | nil => simp [deleteLoop]
  | cons f rest ih =>
    have hf := h f (by simp)
    have hrest : ∀ g ∈ rest, frames_query_equal q g = .ok (framesQueryEqualExact q g) :=
      fun g hg => h g (by simp [hg])
    cases hv : framesQueryEqualExact q f
    · simp [deleteLoop, hf, hv, ih _ _ hrest, Tag.add_frame]
    · simp [deleteLoop, hf, hv, ih _ _ hrest]

/-- Unconditionally (also when an accessor error aborts it), the delete loop
only ever appends frames drawn from its input list to the tag it threads. -/
theorem deleteLoop_frames (q : Frame) (removed : List Frame) (tag : Tag) (found : Bool) :
    ∃ extra : List Frame,
      (deleteLoop q tag found removed).1 = ⟨tag.version, tag.frames ++ extra⟩ ∧
      ∀ f ∈ extra, f ∈ removed := by
  induction removed generalizing tag found with
  | nil => exact ⟨[], by simp [deleteLoop], by simp⟩
  | cons f rest ih =>
    cases hg : frames_query_equal q f with
    | error e => exact ⟨[], by simp [deleteLoop, hg], by simp⟩
    | ok b =>
      cases b
      · obtain ⟨extra, h1, h2⟩ := ih (tag.add_frame f) found
        refine ⟨f :: extra, ?_, ?_⟩
        · simp only [deleteLoop, hg]
          rw [h1]
          simp [Tag.add_frame]
        · intro g hgm
          rcases List.mem_cons.mp hgm with hgf | hge
          · simp [hgf]
          · simp [h2 g hge]
      · obtain ⟨extra, h1, h2⟩ := ih tag true
        exact ⟨extra, by simp [deleteLoop, hg, h1], fun g hgm => by simp [h2 g hgm]⟩

/-- For a well-kinded query, the not-found message renderer succeeds. -/
theorem deleteQueryStr_ok (q : Frame) (hq : kindOk q = true) :
    ∃ s, deleteQueryStr q = .ok s := by
  obtain ⟨qi, qc⟩ := q
  simp only [kindOk] at hq
  unfold deleteQueryStr
  by_cases hW : qi = "WXXX"
  · subst hW
    simp only [if_neg (by simp : ¬ ("WXXX" = "TXXX")), if_pos rfl] at hq
    cases qc <;> simp_all [get_content_wxxx]
  · by_cases hT : qi = "TXXX"
    · subst hT
      simp only [if_pos rfl] at hq
      cases qc <;> simp_all [get_content_txxx]
    · by_cases hC : qi = "COMM"
      · subst hC
        simp only [if_neg (by simp : ¬ ("COMM" = "TXXX")),
          if_neg (by simp : ¬ ("COMM" = "WXXX")), if_pos rfl] at hq
        cases qc <;> simp_all [get_content_comm]
      · by_cases hU : qi = "USLT"
        · subst hU
          simp only [if_neg (by simp : ¬ ("USLT" = "TXXX")),
            if_neg (by simp : ¬ ("USLT" = "WXXX")),
            if_neg (by simp : ¬ ("USLT" = "COMM")), if_pos rfl] at hq
          cases qc <;> simp_all [get_content_uslt]
        · simp [hW, hT, hC, hU]

/-- C2: for a well-kinded delete query against a tag whose co-identified
frames are well-kinded, `delete_tag_frame` drops exactly the query-equal
frames; the co-identified frames that differ in disambiguating keys survive
in their original relative order (the first conjunct lists them as a filter
of the original frame list); it succeeds iff at least one frame was
dropped; and when zero frames are dropped it returns the not-found error
naming the rendered query and leaves the frame multiset unchanged (a
permutation of the original). -/
theorem c2_delete_exact (tag : Tag) (q : Frame) (hq : kindOk q = true)
    (hf : ∀ f ∈ tag.frames, f.id = q.id → kindOk f = true) :
    ((delete_tag_frame tag q).1).frames
        = tag.frames.filter (fun f => !(f.id == q.id))
          ++ (tag.frames.filter (fun f => f.id == q.id)).filter
              (fun f => !(framesQueryEqualExact q f)) ∧
    ((delete_tag_frame tag q).2 = .ok () ↔
      ∃ f ∈ tag.frames, f.id = q.id ∧ framesQueryEqualExact q f = true) ∧
    ((∀ f ∈ tag.frames, f.id = q.id → framesQueryEqualExact q f = false) →
      (∃ s, deleteQueryStr q = .ok s ∧
        (delete_tag_frame tag q).2
          = .error ("Could not delete " ++ s ++ ": frame not found")) ∧
      ((delete_tag_frame tag q).1).frames.Perm tag.frames) := by
  have hspec : ∀ f ∈ tag.frames.filter (fun f => f.id == q.id),
      frames_query_equal q f = .ok (framesQueryEqualExact q f) := by
    intro f hfm
    rw [List.mem_filter] at hfm
    exact frames_query_equal_spec q f hq (hf f hfm.1 (by simpa using hfm.2))
  have hloop := deleteLoop_spec q (tag.frames.filter (fun f => f.id == q.id))
      ⟨tag.version, tag.frames.filter (fun f => !(f.id == q.id))⟩ false hspec
  have hdel : delete_tag_frame tag q =
      (⟨tag.version,
        tag.frames.filter (fun f => !(f.id == q.id))
          ++ (tag.frames.filter (fun f => f.id == q.id)).filter
              (fun f => !(framesQueryEqualExact q f))⟩,
       if (tag.frames.filter (fun f => f.id == q.id)).any
            (fun f => framesQueryEqualExact q f) then .ok ()
       else
        match deleteQueryStr q with
        | .error e => .error e
        | .ok s => .error ("Could not delete " ++ s ++ ": frame not found")) := by
    simp only [delete_tag_frame, Tag.remove]
    rw [hloop]
    cases hany : (tag.frames.filter (fun f => f.id == q.id)).any
        (fun f => framesQueryEqualExact q f)
    · cases hqs : deleteQueryStr q <;> simp [hany, hqs]
    · simp [hany]
  refine ⟨by rw [hdel], ?_, ?_⟩
  · rw [hdel]
    cases hany : (tag.frames.filter (fun f => f.id == q.id)).any
        (fun f => framesQueryEqualExact q f)
    · simp only [hany, if_false]
      obtain ⟨s, hs⟩ := deleteQueryStr_ok q hq
      rw [List.any_eq_false] at hany
      constructor
      · intro habs
        rw [hs] at habs
        exact absurd habs (by simp)
      · rintro ⟨f, hfm, hfid, hfe⟩
        have : f ∈ tag.frames.filter (fun f => f.id == q.id) := by
          rw [List.mem_filter]
          exact ⟨hfm, by simp [hfid]⟩
        exact absurd hfe (by simp [hany f this])
    · simp only [hany, if_true, true_iff]
      rw [List.any_eq_true] at hany
      obtain ⟨f, hfm, hfe⟩ := hany
      rw [List.mem_filter] at hfm
      exact ⟨f, hfm.1, by simpa using hfm.2, by simpa using hfe⟩
  · intro hnone
    have hany : (tag.frames.filter (fun f => f.id == q.id)).any
        (fun f => framesQueryEqualExact q f) = false := by
      rw [List.any_eq_false]
      intro f hfm
      rw [List.mem_filter] at hfm
      simp [hnone f hfm.1 (by simpa using hfm.2)]
    obtain ⟨s, hs⟩ := deleteQueryStr_ok q hq
    have hkeep : (tag.frames.filter (fun f => f.id == q.id)).filter
        (fun f => !(framesQueryEqualExact q f))
          = tag.frames.filter (fun f => f.id == q.id) := by
      rw [List.filter_eq_self]
      intro f hfm
      rw [List.mem_filter] at hfm
      simp [hnone f hfm.1 (by simpa using hfm.2)]
    refine ⟨⟨s, hs, ?_⟩, ?_⟩
    · rw [hdel]
      simp [hany, hs]
    · rw [hdel]
      simp only [hkeep]
      have hbase := List.filter_append_perm (fun f => !(f.id == q.id)) tag.frames
      simp only [Bool.not_not] at hbase
      exact hbase

/-- C2 witness: the theorem applied at a concrete tag and query; the
matching comment is dropped, the co-identified comment and the unrelated
frame survive, and the status is success. -/
theorem c2_witness :
    ((delete_tag_frame tagC2 qC2).1).frames
        = [Frame.text "TIT2" "t", ⟨"COMM", .comment ⟨"b", "eng", "y"⟩⟩] ∧
    (delete_tag_frame tagC2 qC2).2 = .ok () := by
  have h := c2_delete_exact tagC2 qC2 (by decide) (by decide)
  refine ⟨h.1.trans (by decide), h.2.1.mpr ?_⟩
  exact ⟨⟨"COMM", .comment ⟨"a", "eng", "x"⟩⟩, by decide, by decide, by decide⟩

/-- C8: `delete_tag_frame` preserves, verbatim and in order, every frame
whose identifier differs from the query's — also on the error path: only
frames sharing the query's identifier are extracted and re-examined. -/
theorem c8_unrelated_frames_preserved (tag : Tag) (q : Frame) :
    ((delete_tag_frame tag q).1).frames.filter (fun f => !(f.id == q.id))
      = tag.frames.filter (fun f => !(f.id == q.id)) := by
  obtain ⟨extra, h1, h2⟩ := deleteLoop_frames q (tag.frames.filter (fun f => f.id == q.id))
      ⟨tag.version, tag.frames.filter (fun f => !(f.id == q.id))⟩ false
  have hfst : (delete_tag_frame tag q).1
      = (deleteLoop q ⟨tag.version, tag.frames.filter (fun f => !(f.id == q.id))⟩ false
          (tag.frames.filter (fun f => f.id == q.id))).1 := by
    simp only [delete_tag_frame, Tag.remove]
    rcases hres : deleteLoop q ⟨tag.version, tag.frames.filter (fun f => !(f.id == q.id))⟩ false
        (tag.frames.filter (fun f => f.id == q.id)) with ⟨t, res⟩
    rcases res with e | b
    · simp [hres]
    · cases b
      · rcases hqs : deleteQueryStr q with e | s <;> simp [hres, hqs]
      · simp [hres]
  rw [hfst, h1]
  simp only [List.filter_append]
  have hex : extra.filter (fun f => !(f.id == q.id)) = [] := by
    rw [List.filter_eq_nil_iff]
    intro f hfm
    have hin := h2 f hfm
    rw [List.mem_filter] at hin
    simp [hin.2]
  rw [hex, List.append_nil, List.filter_filter]
  exact List.filter_congr (by intro f _; simp [Bool.and_self])

/-- C3 counterexample: the frame has no valid representation in the target
version, yet non-forced conversion succeeds, because the tag's version
already equals the target and `tag_with_version_from` returns a clone
without any compatibility check.  So "fails iff at least one frame has no
valid representation" is false as stated. -/
theorem c3_counterexample :
    (idForNone "TIT2" Version.id3v24).isNone = true ∧
    tag_with_version_from idForNone tagC3 Version.id3v24 false = .ok tagC3 :=
  ⟨rfl, rfl⟩

/-- C3 (amended): provided the tag's version differs from the target (when
they are equal the tag is returned unchanged with no compatibility check),
non-forced conversion fails iff at least one frame has no valid
representation in the target version, and on failure the error message
lists every incompatible frame identifier.  (The input tag is a value here;
the Rust function takes `&Tag` and cannot modify it.) -/
theorem c3_strict_convert (id_for_version : String → Version → Option String)
    (tag : Tag) (target : Version) (hv : tag.version ≠ target) :
    ((tag.frames.filter (fun x => (id_for_version x.id target).isNone)) = [] →
      tag_with_version_from id_for_version tag target false = .ok ⟨target, tag.frames⟩) ∧
    ((tag.frames.filter (fun x => (id_for_version x.id target).isNone)) ≠ [] →
      tag_with_version_from id_for_version tag target false
        = .error ("Cannot convert tag from " ++ versionStr tag.version ++ " to "
            ++ versionStr target ++ ": Incompatible frames: "
            ++ String.intercalate ", "
                ((tag.frames.filter
                    (fun x => (id_for_version x.id target).isNone)).map Frame.id))) := by
  constructor
  · intro he
    simp [tag_with_version_from, hv, he]
  · intro hne
    have hmap : ((tag.frames.filter
        (fun x => (id_for_version x.id target).isNone)).map Frame.id) ≠ [] := by
      simpa using hne
    simp [tag_with_version_from, hv, hmap]

/-- C3 witness: the amended theorem applied at a concrete conversion that
fails, naming the incompatible identifier. -/
theorem c3_witness :
    tag_with_version_from idForC3 tagC3w Version.id3v24 false
      = .error "Cannot convert tag from ID3v2.3 to ID3v2.4: Incompatible frames: XXXX" :=
  ((c3_strict_convert idForC3 tagC3w Version.id3v24 (by decide)).2 (by decide)).trans (by rfl)

/-- C4: forced conversion always succeeds; when the versions differ the
result holds exactly the subsequence of input frames with a representation
in the target version (a filter of the original list, preserving relative
order), and when the tag is already at the target version it is returned
as an unchanged clone. -/
theorem c4_forced_convert (id_for_version : String → Version → Option String)
    (tag : Tag) (target : Version) :
    (tag.version = target →
      tag_with_version_from id_for_version tag target true = .ok tag) ∧
    (tag.version ≠ target →
      tag_with_version_from id_for_version tag target true
        = .ok ⟨target, tag.frames.filter (fun x => (id_for_version x.id target).isSome)⟩) ∧
    (∃ t, tag_with_version_from id_for_version tag target true = .ok t) := by
  refine ⟨fun hv => by simp [tag_with_version_from, hv], fun hv => by
    simp [tag_with_version_from, hv], ?_⟩
  by_cases hv : tag.version = target
  · exact ⟨tag, by simp [tag_with_version_from, hv]⟩
  · exact ⟨⟨target, tag.frames.filter (fun x => (id_for_version x.id target).isSome)⟩,
      by simp [tag_with_version_from, hv]⟩

/-- C4 witness: the theorem applied at a concrete forced conversion; the
frame without an ID3v2.2 representation is dropped, the other kept. -/
theorem c4_witness :
    tag_with_version_from idForC4 tagC4 Version.id3v22 true
      = .ok ⟨Version.id3v22, [Frame.text "TT2" "b"]⟩ :=
  ((c4_forced_convert idForC4 tagC4 Version.id3v22).2.1 (by decide)).trans (by rfl)

/-- C6: the write protocol of `try_write_tag`: when the trial serialization
to the discard sink fails, the function returns the compose error and the
real file write is never attempted (the event trace is just the trial); and
whenever the real write is attempted, the trial serialization succeeded
first. -/
theorem c6_trial_write_guards_file (write_to : Tag → Version → Except String Unit)
    (write_to_path : String → Tag → Version → Except String Unit)
    (tag : Tag) (fpath : String) (version : Version) :
    (∀ e, write_to tag version = .error e →
      try_write_tag write_to write_to_path tag fpath version
        = ([.trial], .error ("Failed to compose tag of '" ++ fpath ++ "': " ++ e))) ∧
    (WriteEvent.real ∈ (try_write_tag write_to write_to_path tag fpath version).1 →
      write_to tag version = .ok ()) := by
  constructor
  · intro e he
    simp [try_write_tag, he]
  · intro hreal
    cases hw : write_to tag version with
    | error e => simp [try_write_tag, hw] at hreal
    | ok u => cases u; rfl

/-- C6 witness: the theorem applied at a concrete failing serialization:
only the trial write happens and the compose error is returned. -/
theorem c6_witness :
    try_write_tag failingWriteTo okWriteToPath tagC3 "song.mp3" Version.id3v24
      = ([.trial], .error "Failed to compose tag of 'song.mp3': boom") :=
  ((c6_trial_write_guards_file failingWriteTo okWriteToPath tagC3 "song.mp3"
      Version.id3v24).1 "boom" rfl).trans (by rfl)

/-- A kind-mismatched frame never scores a hit in a scan. -/
theorem structHit_none_of_bad {γ : Type} (getC : Frame → Except String γ) (idLit : String)
    (accept : γ → Bool) (payload : γ → String) (f : Frame)
    (hb : structBad getC idLit f = true) :
    structHit getC idLit accept payload f = none := by
  unfold structBad at hb
  unfold structHit
  by_cases hid : f.id = idLit
  · cases hg : getC f with
    | error e => simp [hid, hg]
    | ok g => rw [hg] at hb; simp at hb
  · simp [hid]

/-- Removing the elements that can never score from a list does not change
its first hit. -/
theorem findSome?_filter_not {α β : Type} (h : α → Option β) (p : α → Bool) (l : List α)
    (hp : ∀ a, p a = true → h a = none) :
    (l.filter (fun a => !(p a))).findSome? h = l.findSome? h := by
  induction l with
  | nil => rfl
  | cons a rest ih =>
    cases hpa : p a
    · simp [List.filter_cons, hpa, List.findSome?_cons, ih]
    · simp [List.filter_cons, hpa, List.findSome?_cons, hp a hpa, ih]

/-- C5: print resolution.  For each of the four structured kinds, the
result is the payload of the first stored frame (in tag order) satisfying
the kind's matching rule — description equality for `TXXX`/`WXXX`;
description equality plus language equality or the query-language sentinel
`"first"` for `COMM`/`USLT` — and the not-found error names the full query.
For other identifiers the payload of the first frame with that identifier
is returned (text for `T…`, link for `W…`, the generic rendering
otherwise), with `NotFound` naming the identifier when none exists. -/
theorem c5_print_resolution (tag : Tag) (q : Frame) :
    (∀ e, q = ⟨"TXXX", .extendedText e⟩ →
      (print_tag_frame_query tag q).2
        = match tag.frames.findSome? (structHit get_content_txxx "TXXX"
            (fun x => x.description == e.description) ExtendedText.value) with
          | some v => .ok v
          | none => .error ("TXXX frame with description '" ++ e.description
              ++ "' not found")) ∧
    (∀ e, q = ⟨"WXXX", .extendedLink e⟩ →
      (print_tag_frame_query tag q).2
        = match tag.frames.findSome? (structHit get_content_wxxx "WXXX"
            (fun x => x.description == e.description) ExtendedLink.link) with
          | some v => .ok v
          | none => .error ("WXXX frame with description '" ++ e.description
              ++ "' not found")) ∧
    (∀ c, q = ⟨"COMM", .comment c⟩ →
      (print_tag_frame_query tag q).2
        = match tag.frames.findSome? (structHit get_content_comm "COMM"
            (fun x => x.description == c.description
              && (x.lang == c.lang || c.lang == "first")) Comment.text) with
          | some v => .ok v
          | none => .error ("COMM frame with description '" ++ c.description
              ++ "' and language '" ++ c.lang ++ "' not found")) ∧
    (∀ l, q = ⟨"USLT", .lyrics l⟩ →
      (print_tag_frame_query tag q).2
        = match tag.frames.findSome? (structHit get_content_uslt "USLT"
            (fun x => x.description == l.description
              && (x.lang == l.lang || l.lang == "first")) Lyrics.text) with
          | some v => .ok v
          | none => .error ("USLT frame with description '" ++ l.description
              ++ "' and language '" ++ l.lang ++ "' not found")) ∧
    (q.id ≠ "TXXX" → q.id ≠ "WXXX" → q.id ≠ "COMM" → q.id ≠ "USLT" →
      strStartsWith q.id "T" = true →
      (print_tag_frame_query tag q).2
        = match tagGet tag q.id with
          | none => .error ("Frame not found: " ++ q.id)
          | some f => get_content_text f) ∧
    (q.id ≠ "TXXX" → q.id ≠ "WXXX" → q.id ≠ "COMM" → q.id ≠ "USLT" →
      strStartsWith q.id "T" = false → strStartsWith q.id "W" = true →
      (print_tag_frame_query tag q).2
        = match tagGet tag q.id with
          | none => .error ("Frame not found: " ++ q.id)
          | some f => get_content_link f) ∧
    (q.id ≠ "TXXX" → q.id ≠ "WXXX" → q.id ≠ "COMM" → q.id ≠ "USLT" →
      strStartsWith q.id "T" = false → strStartsWith q.id "W" = false →
      (print_tag_frame_query tag q).2
        = match tagGet tag q.id with
          | none => .error ("Frame not found: " ++ q.id)
          | some f => .ok (contentDisplay f.content)) := by
  refine ⟨?_, ?_, ?_, ?_, ?_, ?_, ?_⟩
  · intro e he
    subst he
    simp [print_tag_frame_query, get_content_txxx, scanStructured_eq]
  · intro e he
    subst he
    simp [print_tag_frame_query, get_content_wxxx, scanStructured_eq]
  · intro c hc
    subst hc
    simp [print_tag_frame_query, get_content_comm, scanStructured_eq]
  · intro l hl
    subst hl
    simp [print_tag_frame_query, get_content_uslt, scanStructured_eq]
  · intro h1 h2 h3 h4 hT
    simp only [print_tag_frame_query, if_neg h1, if_neg h2, if_neg h3, if_neg h4, if_pos hT]
    cases hfind : tagGet tag q.id with
    | none => simp
    | some f => cases hg : get_content_text f <;> simp [hg]
  · intro h1 h2 h3 h4 hT hW
    simp only [print_tag_frame_query, if_neg h1, if_neg h2, if_neg h3, if_neg h4,
      if_neg (by simp [hT] : ¬ (strStartsWith q.id "T" = true)), if_pos hW]
    cases hfind : tagGet tag q.id with
    | none => simp
    | some f => cases hg : get_content_link f <;> simp [hg]
  · intro h1 h2 h3 h4 hT hW
    simp only [print_tag_frame_query, if_neg h1, if_neg h2, if_neg h3, if_neg h4,
      if_neg (by simp [hT] : ¬ (strStartsWith q.id "T" = true)),
      if_neg (by simp [hW] : ¬ (strStartsWith q.id "W" = true))]
    cases hfind : tagGet tag q.id with
    | none => simp
    | some f => simp

/-- C5 witness: the theorem applied at a concrete tag and `TXXX` query. -/
theorem c5_witness : (print_tag_frame_query tagC5 qC5).2 = .ok "Sample Content" :=
  ((c5_print_resolution tagC5 qC5).1 ⟨"Description", ""⟩ rfl).trans (by rfl)

/-- If some removed frame cannot be compared to the query, the delete loop
ends in an error. -/
theorem deleteLoop_error_of_mem (q : Frame) (removed : List Frame) (tag : Tag) (found : Bool)
    (h : ∃ f ∈ removed, ∃ e, frames_query_equal q f = .error e) :
    ∃ e, (deleteLoop q tag found removed).2 = .error e := by
  induction removed generalizing tag found with
  | nil => simp at h
  | cons f rest ih =>
    obtain ⟨g, hgm, e0, hge⟩ := h
    rcases List.mem_cons.mp hgm with rfl | hgr
    · exact ⟨e0, by simp [deleteLoop, hge]⟩
    · cases hg : frames_query_equal q f with
      | error e2 => exact ⟨e2, by simp [deleteLoop, hg]⟩
      | ok b =>
        cases b
        · obtain ⟨e2, h2⟩ := ih (tag.add_frame f) found ⟨g, hgr, e0, hge⟩
          exact ⟨e2, by simp [deleteLoop, hg, h2]⟩
        · obtain ⟨e2, h2⟩ := ih tag true ⟨g, hgr, e0, hge⟩
          exact ⟨e2, by simp [deleteLoop, hg, h2]⟩

/-- C9 counterexample: on the same tag holding a kind-mismatched `TXXX`
frame, print resolution warns and continues (it returns the payload of the
later well-formed frame), but delete resolution does not: it aborts with
the kind-mismatch error even though a matching frame exists, so the
mismatch is not non-fatal for delete as the claim states. -/
theorem c9_counterexample :
    (print_tag_frame_query tagC9 qC9).2 = .ok "V" ∧
    (print_tag_frame_query tagC9 qC9).1
      = ["rsid3: Frame claims to be TXXX but has no extended text content: "
          ++ frameDebug ⟨"TXXX", .text "oops"⟩] ∧
    (delete_tag_frame tagC9 qC9).2
      = .error ("Frame claims to be TXXX but has no extended text content: "
          ++ frameDebug ⟨"TXXX", .text "oops"⟩) :=
  ⟨rfl, rfl, rfl⟩

/-- C9 (amended): a kind-mismatched stored frame is non-fatal for print
resolution — every scan returns the same result on a tag purged of its
kind-mismatched frames, and when no frame matches, the warnings are
exactly one message per kind-mismatched co-identified frame — but it is
fatal for the enclosing delete: if any frame sharing the query's identifier
cannot be compared, `delete_tag_frame` returns an error instead of
continuing with the remaining frames. -/
theorem c9_kind_mismatch_handling :
    (∀ {γ : Type} (getC : Frame → Except String γ) (idLit : String)
        (accept : γ → Bool) (payload : γ → String) (notFound : String)
        (frames : List Frame),
      (scanStructured getC idLit accept payload notFound
          (frames.filter (fun f => !(structBad getC idLit f)))).2
        = (scanStructured getC idLit accept payload notFound frames).2) ∧
    (∀ {γ : Type} (getC : Frame → Except String γ) (idLit : String)
        (accept : γ → Bool) (payload : γ → String) (notFound : String)
        (frames : List Frame),
      frames.findSome? (structHit getC idLit accept payload) = none →
      (scanStructured getC idLit accept payload notFound frames).1
        = (frames.filter (structBad getC idLit)).map (structWarn getC)) ∧
    (∀ (version : Version) (frames : List Frame) (e : ExtendedText),
      (print_tag_frame_query
          ⟨version, frames.filter (fun f => !(structBad get_content_txxx "TXXX" f))⟩
          ⟨"TXXX", .extendedText e⟩).2
        = (print_tag_frame_query ⟨version, frames⟩ ⟨"TXXX", .extendedText e⟩).2) ∧
    (∀ (tag : Tag) (q : Frame),
      (∃ f ∈ tag.frames, f.id = q.id ∧ ∃ e, frames_query_equal q f = .error e) →
      ∃ e, (delete_tag_frame tag q).2 = .error e) := by
  have hA : ∀ {γ : Type} (getC : Frame → Except String γ) (idLit : String)
      (accept : γ → Bool) (payload : γ → String) (notFound : String)
      (frames : List Frame),
      (scanStructured getC idLit accept payload notFound
          (frames.filter (fun f => !(structBad getC idLit f)))).2
        = (scanStructured getC idLit accept payload notFound frames).2 := by
    intro γ getC idLit accept payload notFound frames
    rw [scanStructured_eq, scanStructured_eq]
    simp only
    rw [findSome?_filter_not _ _ _
      (fun f hb => structHit_none_of_bad getC idLit accept payload f hb)]
  refine ⟨hA, ?_, ?_, ?_⟩
  · intro γ getC idLit accept payload notFound frames hnone
    rw [scanStructured_eq]
    simp only
    rw [List.takeWhile_eq_self_iff.mpr ?_]
    intro f hfm
    rw [List.findSome?_eq_none_iff] at hnone
    simp [hnone f hfm]
  · intro version frames e
    simp only [print_tag_frame_query, get_content_txxx, if_pos rfl]
    exact hA get_content_txxx "TXXX" _ _ _ frames
  · intro tag q ⟨f, hfm, hfid, e0, hge⟩
    have hmem : f ∈ tag.frames.filter (fun g => g.id == q.id) := by
      rw [List.mem_filter]
      exact ⟨hfm, by simp [hfid]⟩
    obtain ⟨e, he⟩ := deleteLoop_error_of_mem q (tag.frames.filter (fun g => g.id == q.id))
        ⟨tag.version, tag.frames.filter (fun g => !(g.id == q.id))⟩ false ⟨f, hmem, e0, hge⟩
    refine ⟨e, ?_⟩
    simp only [delete_tag_frame, Tag.remove]
    rcases hres : deleteLoop q ⟨tag.version, tag.frames.filter (fun g => !(g.id == q.id))⟩
        false (tag.frames.filter (fun g => g.id == q.id)) with ⟨t, res⟩
    rw [hres] at he
    simp only at he
    rw [he]

/-- C9 witness: the delete conjunct of the amended theorem applied at the
concrete tag with a kind-mismatched frame. -/
theorem c9_witness : ∃ e, (delete_tag_frame tagC9 qC9).2 = .error e :=
  c9_kind_mismatch_handling.2.2.2 tagC9 qC9
    ⟨⟨"TXXX", .text "oops"⟩, by decide, rfl,
     ⟨"Frame claims to be TXXX but has no extended text content: "
        ++ frameDebug ⟨"TXXX", .text "oops"⟩, rfl⟩⟩

/-- Two strings with different character lists differ. -/
theorem strNeOfDataNe (s t : String) (h : s.data ≠ t.data) : s ≠ t :=
  fun he => h (congrArg String.data he)

/-- C10 counterexample: `--COMM` has the getter shape (two dashes and four
ASCII uppercase letters), yet `parse_args` does not accept it as a
parameterless Print action: the dedicated `--COMM` arm runs first and
demands two qualifier arguments. -/
theorem c10_counterexample :
    Cli.is_getter_arg "--COMM" = true ∧
    Cli.parse_args ["--COMM"] = .error "2 arguments expected after --COMM" :=
  ⟨rfl, rfl⟩

set_option maxHeartbeats 1600000 in
/-- C10 (amended): any argument of the form `--` followed by four ASCII
uppercase letters or digits — except the four structured identifiers
`COMM`, `USLT`, `TXXX`, `WXXX`, whose arms take qualifier arguments — is
accepted as a parameterless Print action, including codes outside the
supported frame catalog; a setter-shaped argument (`--XXXX=`) whose
identifier is not in the fixed read-write list falls through every arm and
is rejected as an unknown option. -/
theorem c10_getter_setter_asymmetry :
    (∀ c1 c2 c3 c4 : Char,
      Cli.is_getter_arg (String.mk ['-', '-', c1, c2, c3, c4]) = true →
      String.mk ['-', '-', c1, c2, c3, c4] ≠ "--COMM" →
      String.mk ['-', '-', c1, c2, c3, c4] ≠ "--USLT" →
      String.mk ['-', '-', c1, c2, c3, c4] ≠ "--TXXX" →
      String.mk ['-', '-', c1, c2, c3, c4] ≠ "--WXXX" →
      Cli.parse_args [String.mk ['-', '-', c1, c2, c3, c4]]
        = .ok { Cli.init with
            actions := [.Print (Frame.text (String.mk [c1, c2, c3, c4]) "")] }) ∧
    (∀ (c1 c2 c3 c4 : Char) (v : String),
      rwFrameIds.contains (String.mk [c1, c2, c3, c4]) = false →
      Cli.parse_args [String.mk ['-', '-', c1, c2, c3, c4, '='], v]
        = .error ("Unknown option: '"
            ++ String.mk ['-', '-', c1, c2, c3, c4, '='] ++ "'")) := by
  constructor
  · intro c1 c2 c3 c4 hget hC hU hT hW
    have hch := hget
    simp only [Cli.is_getter_arg, strStartsWith, List.isPrefixOf, Bool.and_eq_true,
      List.all_cons, List.all_nil, List.drop_succ_cons, List.drop_zero] at hch
    have hhelp : String.mk ['-', '-', c1, c2, c3, c4] ≠ "--help" := by
      intro he
      have hd : ['-', '-', c1, c2, c3, c4] = ['-', '-', 'h', 'e', 'l', 'p'] :=
        congrArg String.data he
      simp only [List.cons.injEq, true_and] at hd
      rw [hd.1] at hch
      simp at hch
    have h01 : String.mk ['-', '-', c1, c2, c3, c4] ≠ "-h" :=
      strNeOfDataNe _ _ (by simp)
    have h02 : String.mk ['-', '-', c1, c2, c3, c4] ≠ "-V" :=
      strNeOfDataNe _ _ (by simp)
    have h03 : String.mk ['-', '-', c1, c2, c3, c4] ≠ "--version" :=
      strNeOfDataNe _ _ (by simp)
    have h04 : String.mk ['-', '-', c1, c2, c3, c4] ≠ "-L" :=
      strNeOfDataNe _ _ (by simp)
    have h05 : String.mk ['-', '-', c1, c2, c3, c4] ≠ "--list-frames" :=
      strNeOfDataNe _ _ (by simp)
    have h06 : String.mk ['-', '-', c1, c2, c3, c4] ≠ "-d" :=
      strNeOfDataNe _ _ (by simp)
    have h07 : String.mk ['-', '-', c1, c2, c3, c4] ≠ "--frame-sep" :=
      strNeOfDataNe _ _ (by simp)
    have h08 : String.mk ['-', '-', c1, c2, c3, c4] ≠ "-D" :=
      strNeOfDataNe _ _ (by simp)
    have h09 : String.mk ['-', '-', c1, c2, c3, c4] ≠ "--file-sep" :=
      strNeOfDataNe _ _ (by simp)
    have h10 : String.mk ['-', '-', c1, c2, c3, c4] ≠ "-0d" :=
      strNeOfDataNe _ _ (by simp)
    have h11 : String.mk ['-', '-', c1, c2, c3, c4] ≠ "--frame-sep-null" :=
      strNeOfDataNe _ _ (by simp)
    have h12 : String.mk ['-', '-', c1, c2, c3, c4] ≠ "-0D" :=
      strNeOfDataNe _ _ (by simp)
    have h13 : String.mk ['-', '-', c1, c2, c3, c4] ≠ "--file-sep-null" :=
      strNeOfDataNe _ _ (by simp)
    have h14 : String.mk ['-', '-', c1, c2, c3, c4] ≠ "--" :=
      strNeOfDataNe _ _ (by simp)
    have hpd : strStartsWith (String.mk ['-', '-', c1, c2, c3, c4]) "-d" = false := by
      simp [strStartsWith, List.isPrefixOf]
    have hpD : strStartsWith (String.mk ['-', '-', c1, c2, c3, c4]) "-D" = false := by
      simp [strStartsWith, List.isPrefixOf]
    have b01 := beq_eq_false_iff_ne.mpr h01
    have bhelp := beq_eq_false_iff_ne.mpr hhelp
    have b02 := beq_eq_false_iff_ne.mpr h02
    have b03 := beq_eq_false_iff_ne.mpr h03
    have b04 := beq_eq_false_iff_ne.mpr h04
    have b05 := beq_eq_false_iff_ne.mpr h05
    have b06 := beq_eq_false_iff_ne.mpr h06
    have b07 := beq_eq_false_iff_ne.mpr h07
    have b08 := beq_eq_false_iff_ne.mpr h08
    have b09 := beq_eq_false_iff_ne.mpr h09
    have b10 := beq_eq_false_iff_ne.mpr h10
    have b11 := beq_eq_false_iff_ne.mpr h11
    have b12 := beq_eq_false_iff_ne.mpr h12
    have b13 := beq_eq_false_iff_ne.mpr h13
    have b14 := beq_eq_false_iff_ne.mpr h14
    have bC := beq_eq_false_iff_ne.mpr hC
    have bU := beq_eq_false_iff_ne.mpr hU
    have bT := beq_eq_false_iff_ne.mpr hT
    have bW := beq_eq_false_iff_ne.mpr hW
    have hstep : parseStep Cli.init (String.mk ['-', '-', c1, c2, c3, c4]) []
        = .next { Cli.init with
            actions := [.Print (Frame.text (String.mk [c1, c2, c3, c4]) "")] } [] := by
      delta parseStep
      simp only [b01, bhelp, b02, b03, b04, b05, b06, b07, b08, b09, b10, b11, b12, b13,
        b14, bC, bU, bT, bW, hpd, hpD, hget, Bool.or_false, Bool.false_or, Bool.cond_false,
        Bool.cond_true]
      simp [Cli.init, strDrop]
    calc Cli.parse_args [String.mk ['-', '-', c1, c2, c3, c4]]
        = (match parseStep Cli.init (String.mk ['-', '-', c1, c2, c3, c4]) [] with
           | .err e => .error e
           | .stop c => .ok c
           | .next acc2 rest2 => parseLoop 0 acc2 rest2) := rfl
      _ = .ok { Cli.init with
            actions := [.Print (Frame.text (String.mk [c1, c2, c3, c4]) "")] } := by
          rw [hstep]
          rfl
  · intro c1 c2 c3 c4 v hmem
    have hCeq : String.mk ['-', '-', c1, c2, c3, c4, '='] ≠ "--COMM=" := by
      intro he
      have hd : ['-', '-', c1, c2, c3, c4, '='] = ['-', '-', 'C', 'O', 'M', 'M', '='] :=
        congrArg String.data he
      simp only [List.cons.injEq, true_and, and_true] at hd
      rw [hd.1, hd.2.1, hd.2.2.1, hd.2.2.2] at hmem
      exact absurd hmem (by decide)
    have hUeq : String.mk ['-', '-', c1, c2, c3, c4, '='] ≠ "--USLT=" := by
      intro he
      have hd : ['-', '-', c1, c2, c3, c4, '='] = ['-', '-', 'U', 'S', 'L', 'T', '='] :=
        congrArg String.data he
      simp only [List.cons.injEq, true_and, and_true] at hd
      rw [hd.1, hd.2.1, hd.2.2.1, hd.2.2.2] at hmem
      exact absurd hmem (by decide)
    have hTeq : String.mk ['-', '-', c1, c2, c3, c4, '='] ≠ "--TXXX=" := by
      intro he
      have hd : ['-', '-', c1, c2, c3, c4, '='] = ['-', '-', 'T', 'X', 'X', 'X', '='] :=
        congrArg String.data he
      simp only [List.cons.injEq, true_and, and_true] at hd
      rw [hd.1, hd.2.1, hd.2.2.1, hd.2.2.2] at hmem
      exact absurd hmem (by decide)
    have hWeq : String.mk ['-', '-', c1, c2, c3, c4, '='] ≠ "--WXXX=" := by
      intro he
      have hd : ['-', '-', c1, c2, c3, c4, '='] = ['-', '-', 'W', 'X', 'X', 'X', '='] :=
        congrArg String.data he
      simp only [List.cons.injEq, true_and, and_true] at hd
      rw [hd.1, hd.2.1, hd.2.2.1, hd.2.2.2] at hmem
      exact absurd hmem (by decide)
    have h01 : String.mk ['-', '-', c1, c2, c3, c4, '='] ≠ "-h" :=
      strNeOfDataNe _ _ (by simp)
    have h02 : String.mk ['-', '-', c1, c2, c3, c4, '='] ≠ "--help" :=
      strNeOfDataNe _ _ (by simp)
    have h03 : String.mk ['-', '-', c1, c2, c3, c4, '='] ≠ "-V" :=
      strNeOfDataNe _ _ (by simp)
    have h04 : String.mk ['-', '-', c1, c2, c3, c4, '='] ≠ "--version" :=
      strNeOfDataNe _ _ (by simp)
    have h05 : String.mk ['-', '-', c1, c2, c3, c4, '='] ≠ "-L" :=
      strNeOfDataNe _ _ (by simp)
    have h06 : String.mk ['-', '-', c1, c2, c3, c4, '='] ≠ "--list-frames" :=
      strNeOfDataNe _ _ (by simp)
    have h07 : String.mk ['-', '-', c1, c2, c3, c4, '='] ≠ "-d" :=
      strNeOfDataNe _ _ (by simp)
    have h08 : String.mk ['-', '-', c1, c2, c3, c4, '='] ≠ "--frame-sep" :=
      strNeOfDataNe _ _ (by simp)
    have h09 : String.mk ['-', '-', c1, c2, c3, c4, '='] ≠ "-D" :=
      strNeOfDataNe _ _ (by simp)
    have h10 : String.mk ['-', '-', c1, c2, c3, c4, '='] ≠ "--file-sep" :=
      strNeOfDataNe _ _ (by simp)
    have h11 : String.mk ['-', '-', c1, c2, c3, c4, '='] ≠ "-0d" :=
      strNeOfDataNe _ _ (by simp)
    have h12 : String.mk ['-', '-', c1, c2, c3, c4, '='] ≠ "--frame-sep-null" :=
      strNeOfDataNe _ _ (by simp)
    have h13 : String.mk ['-', '-', c1, c2, c3, c4, '='] ≠ "-0D" :=
      strNeOfDataNe _ _ (by simp)
    have h14 : String.mk ['-', '-', c1, c2, c3, c4, '='] ≠ "--file-sep-null" :=
      strNeOfDataNe _ _ (by simp)
    have h15 : String.mk ['-', '-', c1, c2, c3, c4, '='] ≠ "--" :=
      strNeOfDataNe _ _ (by simp)
    have h16 : String.mk ['-', '-', c1, c2, c3, c4, '='] ≠ "--COMM" :=
      strNeOfDataNe _ _ (by simp)
    have h17 : String.mk ['-', '-', c1, c2, c3, c4, '='] ≠ "--USLT" :=
      strNeOfDataNe _ _ (by simp)
    have h18 : String.mk ['-', '-', c1, c2, c3, c4, '='] ≠ "--TXXX" :=
      strNeOfDataNe _ _ (by simp)
    have h19 : String.mk ['-', '-', c1, c2, c3, c4, '='] ≠ "--WXXX" :=
      strNeOfDataNe _ _ (by simp)
    have h20 : String.mk ['-', '-', c1, c2, c3, c4, '='] ≠ "--COMM-" :=
      strNeOfDataNe _ _ (by simp)
    have h21 : String.mk ['-', '-', c1, c2, c3, c4, '='] ≠ "--USLT-" :=
      strNeOfDataNe _ _ (by simp)
    have h22 : String.mk ['-', '-', c1, c2, c3, c4, '='] ≠ "--TXXX-" :=
      strNeOfDataNe _ _ (by simp)
    have h23 : String.mk ['-', '-', c1, c2, c3, c4, '='] ≠ "--WXXX-" :=
      strNeOfDataNe _ _ (by simp)
    have h24 : String.mk ['-', '-', c1, c2, c3, c4, '='] ≠ "--id3v2.2" :=
      strNeOfDataNe _ _ (by simp)
    have h25 : String.mk ['-', '-', c1, c2, c3, c4, '='] ≠ "--id3v2.3" :=
      strNeOfDataNe _ _ (by simp)
    have h26 : String.mk ['-', '-', c1, c2, c3, c4, '='] ≠ "--id3v2.4" :=
      strNeOfDataNe _ _ (by simp)
    have h27 : String.mk ['-', '-', c1, c2, c3, c4, '='] ≠ "--force-id3v2.2" :=
      strNeOfDataNe _ _ (by simp)
    have h28 : String.mk ['-', '-', c1, c2, c3, c4, '='] ≠ "--force-id3v2.3" :=
      strNeOfDataNe _ _ (by simp)
    have h29 : String.mk ['-', '-', c1, c2, c3, c4, '='] ≠ "--force-id3v2.4" :=
      strNeOfDataNe _ _ (by simp)
    have h30 : String.mk ['-', '-', c1, c2, c3, c4, '='] ≠ "--purge-id3v2.2" :=
      strNeOfDataNe _ _ (by simp)
    have h31 : String.mk ['-', '-', c1, c2, c3, c4, '='] ≠ "--purge-id3v2.3" :=
      strNeOfDataNe _ _ (by simp)
    have h32 : String.mk ['-', '-', c1, c2, c3, c4, '='] ≠ "--purge-id3v2.4" :=
      strNeOfDataNe _ _ (by simp)
    have h33 : String.mk ['-', '-', c1, c2, c3, c4, '='] ≠ "--purge-all" :=
      strNeOfDataNe _ _ (by simp)
    have hpd : strStartsWith (String.mk ['-', '-', c1, c2, c3, c4, '=']) "-d" = false := by
      simp [strStartsWith, List.isPrefixOf]
    have hpD : strStartsWith (String.mk ['-', '-', c1, c2, c3, c4, '=']) "-D" = false := by
      simp [strStartsWith, List.isPrefixOf]
    have hgetf : Cli.is_getter_arg (String.mk ['-', '-', c1, c2, c3, c4, '=']) = false := by
      simp [Cli.is_getter_arg]
    have hmemNot : String.mk [c1, c2, c3, c4] ∉ rwFrameIds := by
      simpa using hmem
    have hsetf : Cli.is_setter_arg (String.mk ['-', '-', c1, c2, c3, c4, '=']) = false := by
      simp [Cli.is_setter_arg, strStartsWith, strEndsWith, strDrop, strDropLast,
        List.isPrefixOf, List.isSuffixOf, List.dropLast, hmem]
      exact hmemNot
    have hdelf : Cli.is_delete_arg (String.mk ['-', '-', c1, c2, c3, c4, '=']) = false := by
      simp [Cli.is_delete_arg, strEndsWith, List.isSuffixOf]
    have hdash : strStartsWith (String.mk ['-', '-', c1, c2, c3, c4, '=']) "-" = true := by
      simp [strStartsWith, List.isPrefixOf]
    have b01 := beq_eq_false_iff_ne.mpr h01
    have b02 := beq_eq_false_iff_ne.mpr h02
    have b03 := beq_eq_false_iff_ne.mpr h03
    have b04 := beq_eq_false_iff_ne.mpr h04
    have b05 := beq_eq_false_iff_ne.mpr h05
    have b06 := beq_eq_false_iff_ne.mpr h06
    have b07 := beq_eq_false_iff_ne.mpr h07
    have b08 := beq_eq_false_iff_ne.mpr h08
    have b09 := beq_eq_false_iff_ne.mpr h09
    have b10 := beq_eq_false_iff_ne.mpr h10
    have b11 := beq_eq_false_iff_ne.mpr h11
    have b12 := beq_eq_false_iff_ne.mpr h12
    have b13 := beq_eq_false_iff_ne.mpr h13
    have b14 := beq_eq_false_iff_ne.mpr h14
    have b15 := beq_eq_false_iff_ne.mpr h15
    have b16 := beq_eq_false_iff_ne.mpr h16
    have b17 := beq_eq_false_iff_ne.mpr h17
    have b18 := beq_eq_false_iff_ne.mpr h18
    have b19 := beq_eq_false_iff_ne.mpr h19
    have b20 := beq_eq_false_iff_ne.mpr h20
    have b21 := beq_eq_false_iff_ne.mpr h21
    have b22 := beq_eq_false_iff_ne.mpr h22
    have b23 := beq_eq_false_iff_ne.mpr h23
    have b24 := beq_eq_false_iff_ne.mpr h24
    have b25 := beq_eq_false_iff_ne.mpr h25
    have b26 := beq_eq_false_iff_ne.mpr h26
    have b27 := beq_eq_false_iff_ne.mpr h27
    have b28 := beq_eq_false_iff_ne.mpr h28
    have b29 := beq_eq_false_iff_ne.mpr h29
    have b30 := beq_eq_false_iff_ne.mpr h30
    have b31 := beq_eq_false_iff_ne.mpr h31
    have b32 := beq_eq_false_iff_ne.mpr h32
    have b33 := beq_eq_false_iff_ne.mpr h33
    have bCeq := beq_eq_false_iff_ne.mpr hCeq
    have bUeq := beq_eq_false_iff_ne.mpr hUeq
    have bTeq := beq_eq_false_iff_ne.mpr hTeq
    have bWeq := beq_eq_false_iff_ne.mpr hWeq
    have hstep : parseStep Cli.init (String.mk ['-', '-', c1, c2, c3, c4, '=']) [v]
        = .err ("Unknown option: '" ++ String.mk ['-', '-', c1, c2, c3, c4, '='] ++ "'") := by
      delta parseStep
      simp only [b01, b02, b03, b04, b05, b06, b07, b08, b09, b10, b11, b12, b13, b14, b15,
        b16, b17, b18, b19, b20, b21, b22, b23, b24, b25, b26, b27, b28, b29, b30, b31,
        b32, b33, bCeq, bUeq, bTeq, bWeq, hpd, hpD, hgetf, hsetf, hdelf, hdash,
        Bool.or_false, Bool.false_or, Bool.cond_false, Bool.cond_true]
    calc Cli.parse_args [String.mk ['-', '-', c1, c2, c3, c4, '='], v]
        = (match parseStep Cli.init (String.mk ['-', '-', c1, c2, c3, c4, '=']) [v] with
           | .err e => .error e
           | .stop c => .ok c
           | .next acc2 rest2 => parseLoop 1 acc2 rest2) := rfl
      _ = .error ("Unknown option: '"
            ++ String.mk ['-', '-', c1, c2, c3, c4, '='] ++ "'") := by
          rw [hstep]

/-- C10 witness: the amended theorem applied at the unsupported code `ZZZZ`:
as a getter it parses to a parameterless Print action; as a setter it is
rejected as an unknown option. -/
theorem c10_witness :
    Cli.parse_args ["--ZZZZ"]
      = .ok { Cli.init with actions := [.Print (Frame.text "ZZZZ" "")] } ∧
    Cli.parse_args ["--ZZZZ=", "v"] = .error "Unknown option: '--ZZZZ='" := by
  constructor
  · exact (c10_getter_setter_asymmetry.1 'Z' 'Z' 'Z' 'Z' (by decide)
      (by decide) (by decide) (by decide) (by decide)).trans (by rfl)
  · exact (c10_getter_setter_asymmetry.2 'Z' 'Z' 'Z' 'Z' "v" (by decide)).trans (by rfl)

end Rsid3
